import Mathlib

/-!
Shallow embedding of the pagination-and-extraction core of the
source-shopify-partners Airbyte connector
(source_shopify_partners/source.py and the older variant under
src/source_shopify_partners/source.py), together with theorems checking
the natural-language specification of that core against the code.

Decoded JSON response bodies are modelled by the inductive `Json` below;
Python dictionary indexing `d["k"]` (which raises `KeyError` on a missing
key) and negative list indexing `xs[-1]` (which raises `IndexError` on an
empty list) are modelled as `Except String`-valued lookups, so the error
branches of the Python code are explicit and reachable in the embedding.
-/

/-- A decoded JSON value, as produced by `response.json()` in the Python
source.  Numbers are modelled as integers: every numeric value the
connector manipulates (page sizes, ids) is integral. -/
inductive Json where
  | null : Json
  | bool (b : Bool) : Json
  | num (n : Int) : Json
  | str (s : String) : Json
  | arr (elems : List Json) : Json
  | obj (fields : List (String × Json)) : Json

/-- First-match lookup in an association list of object fields; Python
dictionaries decoded from JSON have unique keys, so first-match agrees
with dictionary lookup. -/
def lookupKey (k : String) : List (String × Json) → Option Json
  | [] => none
  | kv :: rest => if kv.1 = k then some kv.2 else lookupKey k rest

/-- Python `d[k]` on a decoded JSON value: a `KeyError` on a missing key,
a `TypeError` when the value is not a dictionary. -/
def Json.getKey (j : Json) (k : String) : Except String Json :=
  match j with
  | .obj fields =>
    match lookupKey k fields with
    | some v => .ok v
    | none => .error ("KeyError: " ++ k)
  | _ => .error ("TypeError: value is not subscriptable by key " ++ k)

/-- Python `xs[-1]` on a decoded JSON value: an `IndexError` on an empty
list, a `TypeError` when the value is not a list. -/
def Json.getLastElem (j : Json) : Except String Json :=
  match j with
  | .arr elems =>
    match elems.getLast? with
    | some v => .ok v
    | none => .error "IndexError: list index out of range"
  | _ => .error "TypeError: value is not a list"

/-- Python `x == True` for a decoded JSON value (`True == True`,
`1 == True`; everything else compares unequal to `True`). -/
def Json.pyEqTrue (j : Json) : Bool :=
  match j with
  | .bool b => b
  | .num n => n == 1
  | _ => false

mutual

/-- Python `repr` of a decoded JSON value, used by `str` on containers. -/
def Json.pyRepr (j : Json) : String :=
  match j with
  | .null => "None"
  | .bool true => "True"
  | .bool false => "False"
  | .num n => toString n
  | .str s => "\x27" ++ s ++ "\x27"
  | .arr elems => "[" ++ String.intercalate ", " (pyReprList elems) ++ "]"
  | .obj fields => "\x7b" ++ String.intercalate ", " (pyReprFields fields) ++ "\x7d"

/-- Python `repr` of each element of a decoded JSON list. -/
def pyReprList (elems : List Json) : List String :=
  match elems with
  | [] => []
  | j :: rest => Json.pyRepr j :: pyReprList rest

/-- Python `repr` of each key/value entry of a decoded JSON object. -/
def pyReprFields (fields : List (String × Json)) : List String :=
  match fields with
  | [] => []
  | kv :: rest => ("\x27" ++ kv.1 ++ "\x27: " ++ Json.pyRepr kv.2) :: pyReprFields rest

end

/-- Python `f"{v}"`, i.e. `str(v)`, of a decoded JSON value: a string
prints without quotes at top level, containers print by `repr` of their
elements. -/
def Json.pyStr (j : Json) : String :=
  match j with
  | .str s => s
  | _ => j.pyRepr

/-- The GraphQL `variables` mapping `{"appId": app_id, "first": first,
"after": after}` built by both query composers. -/
structure Variables where
  appId : String
  first : Int
  after : Option String
deriving Repr, DecidableEq

/-- The fixed GraphQL document produced by
`ShopifyPartnersAPI._compose_transactions_query`, with the doubled
braces of the f-string resolved (braces written as escapes). -/
def transactionsQueryDocument : String :=
  "\n        query GetTransactions($appId: ID!, $first: Int!, $after: String) \x7b\n            transactions(appId: $appId, first: $first, after: $after)\x7b\n                pageInfo \x7b\n                    hasNextPage\n                    hasPreviousPage\n                \x7d\n                edges \x7b\n                    cursor\n                    node \x7b\n                        createdAt\n                        id\n                    \x7d\n                \x7d\n            \x7d\n        \x7d\n        "

/-- The part of the `_compose_event_query` GraphQL document before the
interpolated `{types_fragment}`. -/
def eventQueryDocumentHead : String :=
  "\n        query GetAppEvents($appId: ID!, $first: Int!, $after: String) \x7b\n          app(id: $appId) \x7b\n            events(first: $first, after: $after, types: "

/-- The part of the `_compose_event_query` GraphQL document after the
interpolated `{types_fragment}`. -/
def eventQueryDocumentSuffix : String :=
  ") \x7b\n              pageInfo \x7b\n                hasNextPage\n                hasPreviousPage\n              \x7d\n              edges \x7b\n                cursor\n                node \x7b\n                  ...EventDetails\n                \x7d\n              \x7d\n            \x7d\n          \x7d\n        \x7d\n\n        fragment EventDetails on AppEvent \x7b\n          type\n          occurredAt\n          app \x7b\n            ...AppInfo\n          \x7d\n          shop \x7b\n            ...ShopInfo\n          \x7d\n          ... on AppSubscriptionEvent \x7b\n          charge \x7b\n            ...ChargeInfo\n            \x7d\n          \x7d\n          ... on AppCreditEvent \x7b\n            appCredit \x7b\n            ...AppCredit\n            \x7d\n          \x7d\n        \x7d\n\n        fragment AppInfo on App \x7b\n          id\n          name\n        \x7d\n\n        fragment ShopInfo on Shop \x7b\n          id\n          name\n        \x7d\n\n        fragment AppCredit on AppCredit \x7b\n            id\n            name\n            test\n        \x7d\n\n        fragment ChargeInfo on AppSubscription \x7b\n            id\n            test\n            name\n            billingOn\n            amount \x7b\n                amount\n                currencyCode\n            \x7d\n\n        \x7d\n        "

/-- Embedding of `ShopifyPartnersAPI._compose_transactions_query`:
returns the fixed transactions document and the variables mapping. -/
def ShopifyPartnersAPI.compose_transactions_query
    (app_id : String) (first : Int) (after : Option String) :
    String × Variables :=
  (transactionsQueryDocument, { appId := app_id, first := first, after := after })

/-- Embedding of `ShopifyPartnersAPI._compose_event_query`: interpolates `types_fragment = "[" + ", ".join(event_types) + "]"`
into the fixed events document and returns it with the variables mapping. -/
def ShopifyPartnersAPI.compose_event_query
    (app_id : String) (event_types : List String) (first : Int) (after : Option String) :
    String × Variables :=
  let types_fragment := "[" ++ String.intercalate ", " event_types ++ "]"
  (eventQueryDocumentHead ++ types_fragment ++ eventQueryDocumentSuffix,
   { appId := app_id, first := first, after := after })

/-- Embedding of `ShopifyPartnersAPI.get_events_installs`: the installs-event query,
`event_types = ["RELATIONSHIP_INSTALLED"]`. -/
def ShopifyPartnersAPI.get_events_installs
    (app_id : String) (first : Int) (after : Option String) : String × Variables :=
  ShopifyPartnersAPI.compose_event_query app_id ["RELATIONSHIP_INSTALLED"] first after

/-- Embedding of `ShopifyPartnersAPI.get_events_credit_applied`: the credit-applied
query, `event_types = ["CREDIT_APPLIED"]`. -/
def ShopifyPartnersAPI.get_events_credit_applied
    (app_id : String) (first : Int) (after : Option String) : String × Variables :=
  ShopifyPartnersAPI.compose_event_query app_id ["CREDIT_APPLIED"] first after

/-- Embedding of `ShopifyPartnersAPI.get_all_transactions`. -/
def ShopifyPartnersAPI.get_all_transactions
    (app_id : String) (first : Int) (after : Option String) : String × Variables :=
  ShopifyPartnersAPI.compose_transactions_query app_id first after

/-- The `gid://partners/App/{application_id}` wrapping applied to the
configured application id in every stream constructor and in
`check_connection`. -/
def applicationGid (application_id : String) : String :=
  "gid://partners/App/" ++ application_id

/-- Embedding of `ShopifyPartnersStream.next_page_token`, applied to the decoded
response body `response.json()`.  Reads
`data.app.events.pageInfo.hasNextPage`; when it compares equal to `True`
returns the cursor of `data.app.events.edges[-1]`, otherwise returns
`None`.  (The `print` call in the source is an output side effect with no
bearing on the returned value.) -/
def ShopifyPartnersStream.next_page_token (response_data : Json) :
    Except String (Option Json) := do
  let events ← (← (← response_data.getKey "data").getKey "app").getKey "events"
  let hasNext ← (← events.getKey "pageInfo").getKey "hasNextPage"
  if hasNext.pyEqTrue then
    let cursor ← (← (← events.getKey "edges").getLastElem).getKey "cursor"
    pure (some cursor)
  else
    pure none

/-- Embedding of `AllTransactions.next_page_token`: same shape as the base version,
but reading from the `data.transactions` path. -/
def AllTransactions.next_page_token (response_data : Json) :
    Except String (Option Json) := do
  let transactions ← (← response_data.getKey "data").getKey "transactions"
  let hasNext ← (← transactions.getKey "pageInfo").getKey "hasNextPage"
  if hasNext.pyEqTrue then
    let cursor ← (← (← transactions.getKey "edges").getLastElem).getKey "cursor"
    pure (some cursor)
  else
    pure none

/-- The Python `for ... in edges: yield {...}` generator loop, run to
completion: applies the per-edge record mapping to each element in order,
collecting the yielded records, and aborts at the first lookup error. -/
def yieldEach (f : Json → Except String Json) : List Json → Except String (List Json)
  | [] => .ok []
  | e :: rest => do
    let record ← f e
    let records ← yieldEach f rest
    pure (record :: records)

/-- The record `ShopifyPartnersRelationshipStream.parse_response` yields
for one edge of `data.app.events.edges`. -/
def relationshipRecordOfEdge (event : Json) : Except String Json := do
  let node ← event.getKey "node"
  let ty ← node.getKey "type"
  let occurredAt ← node.getKey "occurredAt"
  let appId ← (← node.getKey "app").getKey "id"
  let appName ← (← node.getKey "app").getKey "name"
  let shopId ← (← node.getKey "shop").getKey "id"
  let shopName ← (← node.getKey "shop").getKey "name"
  pure (Json.obj
    [("event_type", ty), ("occurredAt", occurredAt),
     ("app_id", appId), ("app_name", appName),
     ("shop_id", shopId), ("shop_name", shopName)])

/-- Embedding of `ShopifyPartnersRelationshipStream.parse_response`, applied to the
decoded response body: one yielded record per edge of
`data.app.events.edges`, in list order. -/
def ShopifyPartnersRelationshipStream.parse_response (response_data : Json) :
    Except String (List Json) := do
  let edges ← (← (← (← response_data.getKey "data").getKey "app").getKey "events").getKey "edges"
  match edges with
  | .arr events => yieldEach relationshipRecordOfEdge events
  | _ => .error "TypeError: edges value is not iterable"

/-- The record `ShopifyCreditStream.parse_response` yields for one edge:
the relationship fields plus flattened `app_credit_*` fields, all read
from the `charge` key of the node (not from `appCredit`). -/
def creditRecordOfEdge (event : Json) : Except String Json := do
  let node ← event.getKey "node"
  let ty ← node.getKey "type"
  let occurredAt ← node.getKey "occurredAt"
  let appId ← (← node.getKey "app").getKey "id"
  let appName ← (← node.getKey "app").getKey "name"
  let shopId ← (← node.getKey "shop").getKey "id"
  let shopName ← (← node.getKey "shop").getKey "name"
  let creditId ← (← node.getKey "charge").getKey "id"
  let creditTest ← (← node.getKey "charge").getKey "test"
  let creditName ← (← node.getKey "charge").getKey "name"
  let creditAmount ← (← (← node.getKey "charge").getKey "amount").getKey "amount"
  let creditCurrency ← (← (← node.getKey "charge").getKey "amount").getKey "currencyCode"
  pure (Json.obj
    [("type", ty), ("occurredAt", occurredAt),
     ("app_id", appId), ("app_name", appName),
     ("shop_id", shopId), ("shop_name", shopName),
     ("app_credit_id", creditId), ("app_credit_test", creditTest),
     ("app_credit_name", creditName), ("app_credit_amount", creditAmount),
     ("app_credit_currency_code", creditCurrency)])

/-- Embedding of `ShopifyCreditStream.parse_response`, applied to the decoded response
body. -/
def ShopifyCreditStream.parse_response (response_data : Json) :
    Except String (List Json) := do
  let edges ← (← (← (← response_data.getKey "data").getKey "app").getKey "events").getKey "edges"
  match edges with
  | .arr events => yieldEach creditRecordOfEdge events
  | _ => .error "TypeError: edges value is not iterable"

/-- The record `ShopifySubscriptionWithCostStream.parse_response`
(source_shopify_partners/source.py, the flat variant) yields for one
edge: relationship fields plus `charge_*`-prefixed flattened charge
fields, `charge_amount` kept as the raw nested amount value. -/
def subscriptionFlatRecordOfEdge (event : Json) : Except String Json := do
  let node ← event.getKey "node"
  let ty ← node.getKey "type"
  let occurredAt ← node.getKey "occurredAt"
  let appId ← (← node.getKey "app").getKey "id"
  let appName ← (← node.getKey "app").getKey "name"
  let shopId ← (← node.getKey "shop").getKey "id"
  let shopName ← (← node.getKey "shop").getKey "name"
  let chargeId ← (← node.getKey "charge").getKey "id"
  let chargeTest ← (← node.getKey "charge").getKey "test"
  let chargeName ← (← node.getKey "charge").getKey "name"
  let chargeBillingOn ← (← node.getKey "charge").getKey "billingOn"
  let chargeAmount ← (← node.getKey "charge").getKey "amount"
  pure (Json.obj
    [("type", ty), ("occurredAt", occurredAt),
     ("app_id", appId), ("app_name", appName),
     ("shop_id", shopId), ("shop_name", shopName),
     ("charge_id", chargeId), ("charge_test", chargeTest),
     ("charge_name", chargeName), ("charge_billingOn", chargeBillingOn),
     ("charge_amount", chargeAmount)])

/-- Embedding of `ShopifySubscriptionWithCostStream.parse_response` (flat variant),
applied to the decoded response body. -/
def ShopifySubscriptionWithCostStream.parse_response (response_data : Json) :
    Except String (List Json) := do
  let edges ← (← (← (← response_data.getKey "data").getKey "app").getKey "events").getKey "edges"
  match edges with
  | .arr events => yieldEach subscriptionFlatRecordOfEdge events
  | _ => .error "TypeError: edges value is not iterable"

/-- The record the older `ShopifySubscriptionWithCostStream.parse_response`
(src/source_shopify_partners/source.py, the nested variant) yields for one
edge: `app`, `shop` and `charge` kept as nested sub-objects. -/
def subscriptionNestedRecordOfEdge (event : Json) : Except String Json := do
  let node ← event.getKey "node"
  let ty ← node.getKey "type"
  let occurredAt ← node.getKey "occurredAt"
  let appId ← (← node.getKey "app").getKey "id"
  let appName ← (← node.getKey "app").getKey "name"
  let shopId ← (← node.getKey "shop").getKey "id"
  let shopName ← (← node.getKey "shop").getKey "name"
  let chargeId ← (← node.getKey "charge").getKey "id"
  let chargeTest ← (← node.getKey "charge").getKey "test"
  let chargeName ← (← node.getKey "charge").getKey "name"
  let chargeBillingOn ← (← node.getKey "charge").getKey "billingOn"
  let chargeAmount ← (← node.getKey "charge").getKey "amount"
  pure (Json.obj
    [("type", ty), ("occurredAt", occurredAt),
     ("app", Json.obj [("id", appId), ("name", appName)]),
     ("shop", Json.obj [("id", shopId), ("name", shopName)]),
     ("charge", Json.obj
       [("id", chargeId), ("test", chargeTest), ("name", chargeName),
        ("billingOn", chargeBillingOn), ("amount", chargeAmount)])])

/-- The nested-variant `ShopifySubscriptionWithCostStream.parse_response`
from src/source_shopify_partners/source.py, applied to the decoded
response body. -/
def SubscriptionWithCostNested.parse_response (response_data : Json) :
    Except String (List Json) := do
  let edges ← (← (← (← response_data.getKey "data").getKey "app").getKey "events").getKey "edges"
  match edges with
  | .arr events => yieldEach subscriptionNestedRecordOfEdge events
  | _ => .error "TypeError: edges value is not iterable"

/-- The record `AllTransactions.parse_response` yields for one edge of
`data.transactions.edges`: exactly the `createdAt` and `id` of the node. -/
def transactionRecordOfEdge (transaction : Json) : Except String Json := do
  let node ← transaction.getKey "node"
  let createdAt ← node.getKey "createdAt"
  let txId ← node.getKey "id"
  pure (Json.obj [("createdAt", createdAt), ("id", txId)])

/-- Embedding of `AllTransactions.parse_response`, applied to the decoded response
body: one record per edge of `data.transactions.edges`. -/
def AllTransactions.parse_response (response_data : Json) :
    Except String (List Json) := do
  let edges ← (← (← response_data.getKey "data").getKey "transactions").getKey "edges"
  match edges with
  | .arr transactions => yieldEach transactionRecordOfEdge transactions
  | _ => .error "TypeError: edges value is not iterable"

/-- Embedding of `RelationshipInstalls.request_body_json`: builds the installs query
via `ShopifyPartnersAPI.get_events_installs(application_id,
int(num_results_per_call), next_page_token)` and returns the
`(query, variables)` request body content. -/
def RelationshipInstalls.request_body_json
    (application_id : String) (num_results_per_call : Int)
    (next_page_token : Option String) : String × Variables :=
  ShopifyPartnersAPI.get_events_installs application_id num_results_per_call next_page_token

/-- The outcome of the single probe HTTP call made by
`SourceShopifyPartners.check_connection`: either a decoded response body
(`response.json()` succeeded), or one of the transport exceptions the
probe catches (`requests.exceptions.RequestException` /
`requests.exceptions.HTTPError`). -/
inductive ProbeResponse where
  | body (results : Json) : ProbeResponse
  | requestException (msg : String) : ProbeResponse

/-- Embedding of `SourceShopifyPartners.check_connection`, given the outcome of its one
probe request.  A caught transport exception yields
`(False, "Unable to connect to the shopify partners api :: {e}")`; a
decoded body containing the top-level key `"error"` yields
`(False, str(results["error"]))`; any other decoded dictionary body yields
`(True, None)`.  A non-dictionary body has no `.keys()` method, so that
`AttributeError` propagates uncaught (the `except` clause catches only the
two transport exception types). -/
def SourceShopifyPartners.check_connection (probe : ProbeResponse) :
    Except String (Bool × Option String) :=
  match probe with
  | .requestException e =>
    .ok (false, some ("Unable to connect to the shopify partners api :: " ++ e))
  | .body results =>
    match results with
    | .obj fields =>
      match lookupKey "error" fields with
      | some v => .ok (false, some v.pyStr)
      | none => .ok (true, none)
    | _ => .error "AttributeError: keys"

/-- One edge of a decoded cursor-paginated response:
`{"cursor": cursor, "node": node}`. -/
def mkEdge (cursor : String) (node : Json) : Json :=
  Json.obj [("cursor", Json.str cursor), ("node", node)]

/-- A decoded events-stream response body of the shape the GraphQL
events query of the connector produces: `data.app.events` holding a `pageInfo`
object with boolean `hasNextPage` / `hasPreviousPage` and an `edges` list
of cursor/node pairs. -/
def mkEventsResponse (hasNext hasPrev : Bool) (edges : List (String × Json)) : Json :=
  Json.obj [("data", Json.obj [("app", Json.obj [("events", Json.obj
    [("pageInfo", Json.obj
       [("hasNextPage", Json.bool hasNext), ("hasPreviousPage", Json.bool hasPrev)]),
     ("edges", Json.arr (edges.map (fun e => mkEdge e.1 e.2)))])])])]

/-- A decoded transactions response body of the shape the GraphQL
transactions query of the connector produces: the same pageInfo/edges structure
under `data.transactions`. -/
def mkTransactionsResponse (hasNext hasPrev : Bool) (edges : List (String × Json)) : Json :=
  Json.obj [("data", Json.obj [("transactions", Json.obj
    [("pageInfo", Json.obj
       [("hasNextPage", Json.bool hasNext), ("hasPreviousPage", Json.bool hasPrev)]),
     ("edges", Json.arr (edges.map (fun e => mkEdge e.1 e.2)))])])]

/-- An event node with the field set the events query requests for
relationship events. -/
def mkEventNode (ty occurredAt appId appName shopId shopName : Json) : Json :=
  Json.obj
    [("type", ty), ("occurredAt", occurredAt),
     ("app", Json.obj [("id", appId), ("name", appName)]),
     ("shop", Json.obj [("id", shopId), ("name", shopName)])]

/-- Modelled from the spec: the PaginationDriver control loop of spec
section 4.2.  The loop itself lives in the enclosing pipeline framework
(the airbyte_cdk `HttpStream` read loop), which is not among this
sources of this repository; only the three per-stream hooks it drives —
`request_body_json`, `parse_response` and `next_page_token`, embedded
above from the source — are.  Following the spec: start with `after =
null`; build a request body for the current cursor; submit it (here: the
`transport` argument maps the variables of the request to a decoded response
body); yield one record per edge; if `next_page_token` yields a cursor,
loop with it as the new `after`, otherwise stop.  `fuel` bounds the number
of pages so the definition is total; the returned pair lists the variables
of each issued request (the accompanying document text is the fixed installs
document, identical for every request) and all yielded records in order. -/
def paginationDriver (transport : Variables → Json)
    (application_id : String) (first : Int) :
    Nat → Option String → Except String (List Variables × List Json)
  | 0, _ => .error "page budget exhausted"
  | fuel + 1, after =>
    let body := RelationshipInstalls.request_body_json application_id first after
    let response_data := transport body.2
    (ShopifyPartnersRelationshipStream.parse_response response_data) >>= fun records =>
    (ShopifyPartnersStream.next_page_token response_data) >>= fun token =>
    match token with
    | none => .ok ([body.2], records)
    | some (Json.str cursor) =>
      (paginationDriver transport application_id first fuel (some cursor)) >>= fun rest =>
      .ok (body.2 :: rest.1, records ++ rest.2)
    | some _ => .error "next page token is not a string cursor"

/-- Page 1 of the two-page round-trip fixture: two edges, `hasNextPage`
true, last cursor `"c1"`. -/
def c2Page1 : Json :=
  mkEventsResponse true false
    [("c0", mkEventNode (.str "RELATIONSHIP_INSTALLED") (.str "2024-01-01T00:00:00Z")
        (.str "a1") (.str "App One") (.str "s1") (.str "Shop One")),
     ("c1", mkEventNode (.str "RELATIONSHIP_INSTALLED") (.str "2024-01-02T00:00:00Z")
        (.str "a1") (.str "App One") (.str "s2") (.str "Shop Two"))]

/-- Page 2 of the round-trip fixture: one edge, `hasNextPage` false. -/
def c2Page2 : Json :=
  mkEventsResponse false false
    [("c2", mkEventNode (.str "RELATIONSHIP_INSTALLED") (.str "2024-01-03T00:00:00Z")
        (.str "a1") (.str "App One") (.str "s3") (.str "Shop Three"))]

/-- The fixture transport: the first request (no `after`) gets page 1;
the request carrying `after = "c1"` gets page 2. -/
def c2Transport (v : Variables) : Json :=
  match v.after with
  | none => c2Page1
  | some a => if a = "c1" then c2Page2 else Json.null

/-- The C3 fixture node: a CREDIT_APPLIED event whose billing data sits
under a `charge` key. -/
def c3Node : Json :=
  Json.obj
    [("type", .str "CREDIT_APPLIED"), ("occurredAt", .str "2024-01-01T00:00:00Z"),
     ("app", .obj [("id", .str "1"), ("name", .str "A")]),
     ("shop", .obj [("id", .str "2"), ("name", .str "S")]),
     ("charge", .obj
       [("id", .str "3"), ("test", .bool false), ("name", .str "c"),
        ("amount", .obj [("amount", .str "10.00"), ("currencyCode", .str "USD")])])]

/-- The same node with its billing data under `appCredit` instead of
`charge` (the key family the GraphQL fragment actually requests for
credit events). -/
def c3NodeAppCreditKeyed : Json :=
  Json.obj
    [("type", .str "CREDIT_APPLIED"), ("occurredAt", .str "2024-01-01T00:00:00Z"),
     ("app", .obj [("id", .str "1"), ("name", .str "A")]),
     ("shop", .obj [("id", .str "2"), ("name", .str "S")]),
     ("appCredit", .obj
       [("id", .str "3"), ("test", .bool false), ("name", .str "c"),
        ("amount", .obj [("amount", .str "10.00"), ("currencyCode", .str "USD")])])]

/-- A transaction edge datum — cursor, `createdAt` value, `id` value, and
any further node fields — assembled into the cursor/node pair of a
canonical transactions response. -/
def mkTransactionEdge (e : String × Json × Json × List (String × Json)) :
    String × Json :=
  (e.1, Json.obj (("createdAt", e.2.1) :: ("id", e.2.2.1) :: e.2.2.2))


/-- A subscription event node carrying all keys the two
SubscriptionWithCostShape variants reference — arbitrary values for each
referenced key, plus arbitrary further node fields after them. -/
def mkSubscriptionNode
    (ty occ appId appName shopId shopName cid ctest cname cbill camt : Json)
    (extra : List (String × Json)) : Json :=
  Json.obj
    ([("type", ty), ("occurredAt", occ),
      ("app", Json.obj [("id", appId), ("name", appName)]),
      ("shop", Json.obj [("id", shopId), ("name", shopName)]),
      ("charge", Json.obj
        [("id", cid), ("test", ctest), ("name", cname),
         ("billingOn", cbill), ("amount", camt)])] ++ extra)

theorem ebind_ok {α β : Type} (a : α) (f : α → Except String β) :
    (Except.ok a >>= f) = f a := rfl

theorem ebind_error {α β : Type} (e : String) (f : α → Except String β) :
    ((Except.error e : Except String α) >>= f) = Except.error e := rfl

/-- `edges[-1]` over the canonical edge list: the last element of the
mapped edge list is the edge built from the last cursor/node pair. -/
theorem getLastElem_edges (edges : List (String × Json)) :
    (Json.arr (edges.map (fun e => mkEdge e.1 e.2))).getLastElem =
      (match edges.getLast? with
       | some e => Except.ok (mkEdge e.1 e.2)
       | none => Except.error "IndexError: list index out of range") := by
  simp only [Json.getLastElem, List.getLast?_map]
  cases edges.getLast? <;> rfl

/-- On a canonical events response, `ShopifyPartnersStream.next_page_token`
computes: `None` when `hasNextPage` is false, otherwise the cursor of
the last edge (an `IndexError` when there is no last edge). -/
theorem npt_events_eval (hn hp : Bool) (edges : List (String × Json)) :
    ShopifyPartnersStream.next_page_token (mkEventsResponse hn hp edges) =
      (if hn then
        match edges.getLast? with
        | some e => Except.ok (some (Json.str e.1))
        | none => Except.error "IndexError: list index out of range"
       else Except.ok none) := by
  cases hn
  · rfl
  · show (Json.arr (edges.map (fun e => mkEdge e.1 e.2))).getLastElem >>= _ = _
    rw [getLastElem_edges]
    cases edges.getLast? <;> rfl

/-- On a canonical transactions response, `AllTransactions.next_page_token`
computes the same way from the `data.transactions` path. -/
theorem npt_transactions_eval (hn hp : Bool) (edges : List (String × Json)) :
    AllTransactions.next_page_token (mkTransactionsResponse hn hp edges) =
      (if hn then
        match edges.getLast? with
        | some e => Except.ok (some (Json.str e.1))
        | none => Except.error "IndexError: list index out of range"
       else Except.ok none) := by
  cases hn
  · rfl
  · show (Json.arr (edges.map (fun e => mkEdge e.1 e.2))).getLastElem >>= _ = _
    rw [getLastElem_edges]
    cases edges.getLast? <;> rfl

/-- Claim C1: for every decoded events-stream response (the canonical
shape `data.app.events` with boolean `pageInfo.hasNextPage` and a list of
cursor-carrying edges), `next_page_token` returns the cursor of the last
edge of the current page exactly when `hasNextPage` is true, and returns
`None` — terminating the pagination loop — exactly when `hasNextPage` is
false; the returned cursor is always that of the last edge and nothing
else.  Stated for both `ShopifyPartnersStream.next_page_token` and the
`data.transactions`-path `AllTransactions.next_page_token`. -/
theorem claim_c1_next_page_token_last_cursor_iff_hasNextPage
    (hn hp : Bool) (edges front : List (String × Json)) (c : String) (n : Json) :
    (ShopifyPartnersStream.next_page_token (mkEventsResponse hn hp (front ++ [(c, n)])) =
        Except.ok (some (Json.str c)) ↔ hn = true)
    ∧ (ShopifyPartnersStream.next_page_token (mkEventsResponse hn hp edges) =
        Except.ok none ↔ hn = false)
    ∧ (AllTransactions.next_page_token (mkTransactionsResponse hn hp (front ++ [(c, n)])) =
        Except.ok (some (Json.str c)) ↔ hn = true)
    ∧ (AllTransactions.next_page_token (mkTransactionsResponse hn hp edges) =
        Except.ok none ↔ hn = false) := by
  refine ⟨?_, ?_, ?_, ?_⟩ <;>
    simp only [npt_events_eval, npt_transactions_eval]
  all_goals cases hn
  all_goals simp [List.getLast?_concat]
  all_goals
    cases h : edges.getLast? <;> simp [h]

/-- Claim C5: on every decoded response with an empty edge list and
`pageInfo.hasNextPage = false`, `parse_response` yields zero records and
`next_page_token` returns `None`, and neither raises: because the
`hasNextPage` guard is evaluated before the `edges[-1]` lookup, the
empty-list `IndexError` branch is unreachable under this precondition. -/
theorem claim_c5_empty_page_terminates_cleanly (hp : Bool) :
    ShopifyPartnersRelationshipStream.parse_response (mkEventsResponse false hp []) =
        Except.ok []
    ∧ ShopifyPartnersStream.next_page_token (mkEventsResponse false hp []) =
        Except.ok none := by
  exact ⟨rfl, rfl⟩

/-- Claim C9: on every decoded response whose `pageInfo.hasNextPage` is
true but whose edge list is empty, `next_page_token` fails with the
index-lookup error of the unguarded `edges[-1]` rather than returning a
cursor or `None`; clean loop termination can thus only come from
`hasNextPage = false`.  Stated for both the events path and the
`data.transactions` path. -/
theorem claim_c9_hasNextPage_with_empty_edges_raises (hp : Bool) :
    ShopifyPartnersStream.next_page_token (mkEventsResponse true hp []) =
        Except.error "IndexError: list index out of range"
    ∧ AllTransactions.next_page_token (mkTransactionsResponse true hp []) =
        Except.error "IndexError: list index out of range" := by
  exact ⟨rfl, rfl⟩

/-- Claim C2: on the two-page fixture (page 1: 2 edges, hasNextPage true,
last cursor "c1"; page 2: 1 edge, hasNextPage false), the pagination loop
built from `request_body_json`, `parse_response` and `next_page_token`
issues exactly 2 requests — the second with the `after` variable equal to
"c1" — and yields exactly 3 records in edge order, the records of page 1
preceding those of page 2. -/
theorem claim_c2_two_page_round_trip :
    paginationDriver c2Transport "gid://partners/App/1" 10 5 none =
      Except.ok
        ([{ appId := "gid://partners/App/1", first := 10, after := none },
          { appId := "gid://partners/App/1", first := 10, after := some "c1" }],
         [Json.obj
            [("event_type", .str "RELATIONSHIP_INSTALLED"),
             ("occurredAt", .str "2024-01-01T00:00:00Z"),
             ("app_id", .str "a1"), ("app_name", .str "App One"),
             ("shop_id", .str "s1"), ("shop_name", .str "Shop One")],
          Json.obj
            [("event_type", .str "RELATIONSHIP_INSTALLED"),
             ("occurredAt", .str "2024-01-02T00:00:00Z"),
             ("app_id", .str "a1"), ("app_name", .str "App One"),
             ("shop_id", .str "s2"), ("shop_name", .str "Shop Two")],
          Json.obj
            [("event_type", .str "RELATIONSHIP_INSTALLED"),
             ("occurredAt", .str "2024-01-03T00:00:00Z"),
             ("app_id", .str "a1"), ("app_name", .str "App One"),
             ("shop_id", .str "s3"), ("shop_name", .str "Shop Three")]]) := by
  rfl

/-- Claim C3: the CreditShape mapping applied to the fixture node yields a
record with `app_credit_amount = "10.00"` and `app_credit_currency_code =
"USD"`, every `app_credit_*` field sourced from the `charge` key of the node —
as witnessed both by the full output record on the `charge`-keyed node and
by the `KeyError: charge` the mapping raises when the same data sits under
`appCredit` instead. -/
theorem claim_c3_credit_shape_reads_charge_key :
    ShopifyCreditStream.parse_response (mkEventsResponse false false [("cur0", c3Node)]) =
      Except.ok
        [Json.obj
          [("type", .str "CREDIT_APPLIED"), ("occurredAt", .str "2024-01-01T00:00:00Z"),
           ("app_id", .str "1"), ("app_name", .str "A"),
           ("shop_id", .str "2"), ("shop_name", .str "S"),
           ("app_credit_id", .str "3"), ("app_credit_test", .bool false),
           ("app_credit_name", .str "c"), ("app_credit_amount", .str "10.00"),
           ("app_credit_currency_code", .str "USD")]]
    ∧ ShopifyCreditStream.parse_response
        (mkEventsResponse false false [("cur0", c3NodeAppCreditKeyed)]) =
      Except.error "KeyError: charge" := by
  exact ⟨rfl, rfl⟩

/-- Claim C8: the query builders are pure functions of their arguments —
calling `_compose_event_query` or `_compose_transactions_query` twice with
identical arguments produces identical (document string, variables
mapping) pairs, with no hidden state involved. -/
theorem claim_c8_query_builders_pure
    (a1 a2 : String) (t1 t2 : List String) (f1 f2 : Int) (af1 af2 : Option String)
    (b1 b2 : String) (g1 g2 : Int) (bg1 bg2 : Option String)
    (ha : a1 = a2) (ht : t1 = t2) (hf : f1 = f2) (haf : af1 = af2)
    (hb : b1 = b2) (hg : g1 = g2) (hbg : bg1 = bg2) :
    ShopifyPartnersAPI.compose_event_query a1 t1 f1 af1 =
        ShopifyPartnersAPI.compose_event_query a2 t2 f2 af2
    ∧ ShopifyPartnersAPI.compose_transactions_query b1 g1 bg1 =
        ShopifyPartnersAPI.compose_transactions_query b2 g2 bg2 := by
  subst ha ht hf haf hb hg hbg
  exact ⟨rfl, rfl⟩

/-- Witness for claim C8 at concrete arguments: two calls of each builder
with the same app id, event-type list, page size and cursor coincide. -/
theorem claim_c8_query_builders_pure_witness :
    ShopifyPartnersAPI.compose_event_query
        "gid://partners/App/1" ["RELATIONSHIP_INSTALLED"] 10 none =
      ShopifyPartnersAPI.compose_event_query
        "gid://partners/App/1" ["RELATIONSHIP_INSTALLED"] 10 none
    ∧ ShopifyPartnersAPI.compose_transactions_query
        "gid://partners/App/1" 10 (some "c1") =
      ShopifyPartnersAPI.compose_transactions_query
        "gid://partners/App/1" 10 (some "c1") :=
  claim_c8_query_builders_pure
    "gid://partners/App/1" "gid://partners/App/1"
    ["RELATIONSHIP_INSTALLED"] ["RELATIONSHIP_INSTALLED"]
    10 10 none none
    "gid://partners/App/1" "gid://partners/App/1" 10 10 (some "c1") (some "c1")
    rfl rfl rfl rfl rfl rfl rfl

/-- Claim C4: `check_connection` reports failure exactly when the decoded
body carries a top-level `"error"` key or the transport raises one of the
caught request exceptions: a caught exception yields `(False, reason)`
naming the exception, an `"error"`-keyed dictionary body yields `(False,
str(results["error"]))`, any other dictionary body yields `(True, None)`;
in particular the body `{"error": "invalid token"}` yields `(False,
"invalid token")`, a reason containing "invalid token". -/
theorem claim_c4_check_connection_failure_iff_error_key_or_raise
    (msg : String) (fields : List (String × Json)) :
    SourceShopifyPartners.check_connection (.requestException msg) =
      Except.ok (false, some ("Unable to connect to the shopify partners api :: " ++ msg))
    ∧ (∀ v, lookupKey "error" fields = some v →
        SourceShopifyPartners.check_connection (.body (.obj fields)) =
          Except.ok (false, some v.pyStr))
    ∧ (lookupKey "error" fields = none →
        SourceShopifyPartners.check_connection (.body (.obj fields)) =
          Except.ok (true, none))
    ∧ SourceShopifyPartners.check_connection
        (.body (.obj [("error", .str "invalid token")])) =
      Except.ok (false, some "invalid token") := by
  refine ⟨rfl, ?_, ?_, rfl⟩
  · intro v hv
    simp [SourceShopifyPartners.check_connection, hv]
  · intro hnone
    simp [SourceShopifyPartners.check_connection, hnone]

/-- Witness for claim C4 at concrete inputs: the `{"error": "invalid
token"}` body fails with reason "invalid token", and a body without an
`"error"` key succeeds. -/
theorem claim_c4_check_connection_witness :
    SourceShopifyPartners.check_connection
        (.body (.obj [("error", .str "invalid token")])) =
      Except.ok (false, some "invalid token")
    ∧ SourceShopifyPartners.check_connection
        (.body (.obj [("data", .null)])) =
      Except.ok (true, none) :=
  ⟨(claim_c4_check_connection_failure_iff_error_key_or_raise "x" []).2.2.2,
   (claim_c4_check_connection_failure_iff_error_key_or_raise "x"
      [("data", .null)]).2.2.1 rfl⟩

/-- Claim C10: `check_connection` inspects only the exact top-level key
`"error"` of the decoded dictionary body: every dictionary body lacking
that key — including a GraphQL-standard `{"errors": [...]}` error body —
yields `(True, None)`, whatever else it contains. -/
theorem claim_c10_check_connection_exact_error_key_only
    (fields : List (String × Json)) :
    (lookupKey "error" fields = none →
      SourceShopifyPartners.check_connection (.body (.obj fields)) =
        Except.ok (true, none))
    ∧ SourceShopifyPartners.check_connection
        (.body (.obj [("errors",
           .arr [.obj [("message", .str "syntax error in GraphQL query")]])])) =
      Except.ok (true, none) := by
  refine ⟨?_, rfl⟩
  intro hnone
  simp [SourceShopifyPartners.check_connection, hnone]

/-- Witness for claim C10 at a concrete input: a `{"errors": [...]}` body
— which lacks the exact key `"error"` — passes the probe. -/
theorem claim_c10_check_connection_exact_error_key_only_witness :
    SourceShopifyPartners.check_connection
        (.body (.obj [("errors", .arr [.str "bad"])])) =
      Except.ok (true, none) :=
  (claim_c10_check_connection_exact_error_key_only
    [("errors", .arr [.str "bad"])]).1 rfl

/-- Running the transactions per-edge mapping over a whole canonical edge
list yields, per edge, exactly the `createdAt`/`id` pair of the node of that
edge, whatever further fields the node carries. -/
theorem yieldEach_transactionRecord
    (edges : List (String × Json × Json × List (String × Json))) :
    yieldEach transactionRecordOfEdge
        ((edges.map mkTransactionEdge).map (fun e => mkEdge e.1 e.2)) =
      Except.ok (edges.map (fun e => Json.obj [("createdAt", e.2.1), ("id", e.2.2.1)])) := by
  induction edges with
  | nil => rfl
  | cons head tail ih =>
    obtain ⟨c, ca, i, extra⟩ := head
    have hrec : transactionRecordOfEdge
        (mkEdge c (Json.obj (("createdAt", ca) :: ("id", i) :: extra))) =
        Except.ok (Json.obj [("createdAt", ca), ("id", i)]) := rfl
    simp only [List.map_cons, yieldEach, mkTransactionEdge, hrec, ih, ebind_ok]
    rfl

/-- Claim C7: the mapping of the transactions stream yields, for every edge of
`data.transactions.edges` (not the `data.app.events` path), a record
containing exactly the two fields `createdAt` and `id` taken from the node
of that edge, and its next-page cursor is extracted from the
`data.transactions` path — an events-shaped response body with no
`transactions` key makes the mapping fail with `KeyError: transactions`. -/
theorem claim_c7_transactions_shape_and_path
    (hn hp : Bool) (edges : List (String × Json × Json × List (String × Json)))
    (front : List (String × Json)) (c : String) (n : Json) :
    AllTransactions.parse_response
        (mkTransactionsResponse hn hp (edges.map mkTransactionEdge)) =
      Except.ok (edges.map (fun e => Json.obj [("createdAt", e.2.1), ("id", e.2.2.1)]))
    ∧ AllTransactions.next_page_token
        (mkTransactionsResponse hn hp (front ++ [(c, n)])) =
      Except.ok (if hn then some (Json.str c) else none)
    ∧ AllTransactions.parse_response (mkEventsResponse hn hp []) =
      Except.error "KeyError: transactions" := by
  refine ⟨?_, ?_, ?_⟩
  · exact yieldEach_transactionRecord edges
  · rw [npt_transactions_eval]
    cases hn <;> simp [List.getLast?_concat]
  · rfl

/-- Claim C6: the two SubscriptionWithCostShape variants — the flat one
prefixing charge fields with `charge_` and the nested one keeping `app`,
`shop` and `charge` sub-objects — applied to the same edge node with all
referenced keys present produce records that agree field-for-field under
the flattening correspondence: for each X in {id, test, name, billingOn,
amount} the `charge_X` of the flat record equals the `charge.X` of the
nested record, and both carry the same `type`, `occurredAt`, app id/name and
shop id/name values. -/
theorem claim_c6_flat_and_nested_subscription_shapes_agree
    (cur : String)
    (ty occ appId appName shopId shopName cid ctest cname cbill camt : Json)
    (extra : List (String × Json)) :
    ∃ r r',
      subscriptionFlatRecordOfEdge
          (mkEdge cur (mkSubscriptionNode ty occ appId appName shopId shopName
            cid ctest cname cbill camt extra)) = Except.ok r
      ∧ subscriptionNestedRecordOfEdge
          (mkEdge cur (mkSubscriptionNode ty occ appId appName shopId shopName
            cid ctest cname cbill camt extra)) = Except.ok r'
      ∧ r.getKey "type" = r'.getKey "type"
      ∧ r.getKey "occurredAt" = r'.getKey "occurredAt"
      ∧ r.getKey "app_id" = (r'.getKey "app" >>= fun a => a.getKey "id")
      ∧ r.getKey "app_name" = (r'.getKey "app" >>= fun a => a.getKey "name")
      ∧ r.getKey "shop_id" = (r'.getKey "shop" >>= fun s => s.getKey "id")
      ∧ r.getKey "shop_name" = (r'.getKey "shop" >>= fun s => s.getKey "name")
      ∧ r.getKey "charge_id" = (r'.getKey "charge" >>= fun ch => ch.getKey "id")
      ∧ r.getKey "charge_test" = (r'.getKey "charge" >>= fun ch => ch.getKey "test")
      ∧ r.getKey "charge_name" = (r'.getKey "charge" >>= fun ch => ch.getKey "name")
      ∧ r.getKey "charge_billingOn" =
          (r'.getKey "charge" >>= fun ch => ch.getKey "billingOn")
      ∧ r.getKey "charge_amount" =
          (r'.getKey "charge" >>= fun ch => ch.getKey "amount") := by
  refine
    ⟨Json.obj
       [("type", ty), ("occurredAt", occ),
        ("app_id", appId), ("app_name", appName),
        ("shop_id", shopId), ("shop_name", shopName),
        ("charge_id", cid), ("charge_test", ctest),
        ("charge_name", cname), ("charge_billingOn", cbill),
        ("charge_amount", camt)],
     Json.obj
       [("type", ty), ("occurredAt", occ),
        ("app", Json.obj [("id", appId), ("name", appName)]),
        ("shop", Json.obj [("id", shopId), ("name", shopName)]),
        ("charge", Json.obj
          [("id", cid), ("test", ctest), ("name", cname),
           ("billingOn", cbill), ("amount", camt)])],
     rfl, rfl, rfl, rfl, rfl, rfl, rfl, rfl, rfl, rfl, rfl, rfl, rfl⟩

